import Mathlib

/-!
Shallow embedding of the spark-scraper new-token detection core
(src/models.py and src/main.py) and proofs about it.

Modelling conventions:
* Python ints are Lean Int; wall-clock instants are absolute times in
  seconds (Int).  Subtraction of two timezone-aware datetimes in Python is
  independent of the timezone they are rendered in, so instants suffice.
* datetime.fromisoformat is not re-implemented; instead a raw
  token_created_at value carries its classification: CreatedAt.absent for
  a missing key or a non-string value (isinstance(str) fails, so
  __post_init__ assigns nothing), CreatedAt.unparsable for a string that
  fromisoformat rejects (ValueError), CreatedAt.parsable s t for a string
  that parses to the instant t.
* A Python attribute that may never be assigned (created_datetime) is
  Option (Option Int): none means the attribute was never set, so reading
  it raises AttributeError; some none is the assigned value None.
* Fallible calls return Except String; the per-item try/except of
  process_tokens catches the error branch.
* The mutable TokenStore is threaded explicitly: each operation returns
  the updated store.
-/

/-- Classification of the raw token_created_at value of a feed item. -/
inductive CreatedAt where
  | absent : CreatedAt
  | unparsable : String → CreatedAt
  | parsable : String → Int → CreatedAt
deriving DecidableEq, Repr

/-- The Token dataclass of src/models.py after construction, including the
attribute created_datetime that __post_init__ assigns only when
token_created_at is a string. -/
structure Token where
  token_id : Option Int
  name : Option String
  ticker : Option String
  token_address : Option String
  token_created_at : CreatedAt
  description : Option String
  created_datetime : Option (Option Int)
deriving DecidableEq, Repr

/-- Effect of Token.__post_init__ (src/models.py lines 16-25) on the
created_datetime attribute: a non-string value leaves the attribute
unassigned (outer none); an unparsable string assigns None (ValueError
branch); a parsable string assigns the parsed instant. -/
def postInitCreated : CreatedAt → Option (Option Int)
  | CreatedAt.absent => none
  | CreatedAt.unparsable _ => some none
  | CreatedAt.parsable _ t => some (some t)

/-- The nested "token" dict of one raw feed item, as read by
token_data.get: every field may be missing (None). -/
structure RawTokenData where
  id : Option Int
  name : Option String
  ticker : Option String
  token_address : Option String
  token_created_at : CreatedAt
  description : Option String
deriving DecidableEq, Repr

/-- One raw batch item: a dict whose "token" key may be missing, in which
case data.get("token", \x7b\x7d) substitutes the empty dict. -/
structure RawItem where
  token : Option RawTokenData
deriving DecidableEq, Repr

/-- The empty dict default of data.get("token", \x7b\x7d): every
token_data.get returns None. -/
def emptyTokenDict : RawTokenData :=
  { id := none, name := none, ticker := none, token_address := none
    token_created_at := CreatedAt.absent, description := none }

/-- Token.from_api_data (src/models.py lines 27-38): reads each field of
the nested dict with .get (defaulting to None) and constructs the
dataclass, which runs __post_init__. No validation is performed. -/
def Token.from_api_data (item : RawItem) : Token :=
  let token_data := item.token.getD emptyTokenDict
  { token_id := token_data.id
    name := token_data.name
    ticker := token_data.ticker
    token_address := token_data.token_address
    token_created_at := token_data.token_created_at
    description := token_data.description
    created_datetime := postInitCreated token_data.token_created_at }

/-- Token.is_newly_created (src/models.py lines 40-47), with the current
wall-clock instant passed explicitly. Reading created_datetime when
__post_init__ never assigned it raises AttributeError (error branch);
an assigned None is falsy, so the method returns False; otherwise the
age in seconds is compared strictly against threshold_minutes * 60. -/
def Token.is_newly_created (tok : Token) (now : Int) (threshold_minutes : Int) :
    Except String Bool :=
  match tok.created_datetime with
  | none => Except.error "AttributeError: created_datetime"
  | some none => Except.ok false
  | some (some created) => Except.ok (decide (now - created < threshold_minutes * 60))

/-- TokenStore (src/models.py lines 49-67): the in-memory set of seen
token ids. Ids are Option Int because token_id may be None. -/
structure TokenStore where
  seen_tokens : Finset (Option Int)
deriving DecidableEq

/-- TokenStore.__init__: the store starts empty. -/
def TokenStore.init : TokenStore := ⟨∅⟩

/-- TokenStore.is_new_token (src/models.py lines 57-63): returns False and
leaves the store unchanged when the id is already present; otherwise adds
the id and returns True. -/
def TokenStore.is_new_token (store : TokenStore) (tok : Token) : Bool × TokenStore :=
  if tok.token_id ∈ store.seen_tokens then (false, store)
  else (true, ⟨insert tok.token_id store.seen_tokens⟩)

/-- TokenStore.add_token (src/models.py lines 65-67): unconditionally adds
the token id to the seen set. -/
def TokenStore.add_token (store : TokenStore) (tok : Token) : TokenStore :=
  ⟨insert tok.token_id store.seen_tokens⟩

/-- The part of SparkScraper state that the detection core touches: the
token store and the is_first_run phase flag (Startup = true). Browser,
page and notifier fields are external collaborators and are omitted. -/
structure ScraperState where
  token_store : TokenStore
  is_first_run : Bool
deriving DecidableEq

/-- The application Config (src/config.py lines 13-33). Note that no
field carries a newly-created threshold in minutes. -/
structure Config where
  check_interval_minutes : Int
  monitor_url : String
  api_url : String
  browser_headless : Bool
  timezone_offset_hours : Int
  bark_endpoint : String
  bark_push_on_startup : Bool

/-- The per-item loop of SparkScraper.process_tokens (src/main.py lines
218-236), returning (new_tokens, all_tokens, final store). Each item is
parsed and appended to all_tokens; in the first run the item is reported
when is_newly_created(threshold_minutes=30) returns True and is then
always marked seen via add_token, but an exception from is_newly_created
(AttributeError) is caught by the per-item handler and skips the rest of
that iteration; in steady state the item is reported exactly when
is_new_token returns True. -/
def processLoop (now : Int) (is_first_run : Bool) (store : TokenStore) :
    List RawItem → List Token × List Token × TokenStore
  | [] => ([], [], store)
  | item :: rest =>
    let tok := Token.from_api_data item
    if is_first_run then
      match tok.is_newly_created now 30 with
      | Except.error _ =>
        let r := processLoop now is_first_run store rest
        (r.1, tok :: r.2.1, r.2.2)
      | Except.ok b =>
        let r := processLoop now is_first_run (store.add_token tok) rest
        (if b then tok :: r.1 else r.1, tok :: r.2.1, r.2.2)
    else
      let s := store.is_new_token tok
      let r := processLoop now is_first_run s.2 rest
      (if s.1 then tok :: r.1 else r.1, tok :: r.2.1, r.2.2)

/-- SparkScraper.process_tokens (src/main.py lines 210-238): an empty
batch returns immediately with no state change; otherwise the per-item
loop runs. The phase flag is read but never written here. -/
def process_tokens (now : Int) (s : ScraperState) (api_data : List RawItem) :
    List Token × List Token × TokenStore :=
  if api_data.isEmpty then ([], [], s.token_store)
  else processLoop now s.is_first_run s.token_store api_data

/-- The processing portion of SparkScraper.run_once (src/main.py lines
328-336): process_tokens followed by the first-run bookkeeping, which
clears is_first_run whenever it was set, independently of the batch
contents. This is what the spec calls process_batch. -/
def run_once_process (now : Int) (s : ScraperState) (api_data : List RawItem) :
    List Token × List Token × ScraperState :=
  let r := process_tokens now s api_data
  (r.1, r.2.1,
    { token_store := r.2.2
      is_first_run := if s.is_first_run then false else s.is_first_run })

/-- Folding TokenStore.is_new_token over a sequence of calls, keeping only
the store: models a trace of is_new invocations. -/
def runIsNew (store : TokenStore) (toks : List Token) : TokenStore :=
  toks.foldl (fun st t => (st.is_new_token t).2) store

/-- Written from the spec for claim C3 and C7: a token qualifies for
Startup reporting when its creation instant is known and its age is
strictly below the threshold in minutes. -/
def startupQualifies (now threshold : Int) (tok : Token) : Bool :=
  match tok.created_datetime with
  | some (some created) => decide (now - created < threshold * 60)
  | _ => false

/-- Written from the spec for claim C2: the reported subset in steady
state keeps exactly the tokens whose id is not in the seen set at the
moment that token is reached, in input order, marking each reported id. -/
def reportNovel (seen : Finset (Option Int)) : List Token → List Token
  | [] => []
  | t :: ts =>
    if t.token_id ∈ seen then reportNovel seen ts
    else t :: reportNovel (insert t.token_id seen) ts

/-- Modelled from the spec for claim C7 (the code has no such parameter
path): the Startup-phase reported subset computed with a host-supplied
threshold t instead of a fixed constant. -/
def startupReportWithThreshold (now t : Int) (items : List RawItem) : List Token :=
  (items.map Token.from_api_data).filter (startupQualifies now t)

/-- Concrete raw item with a given id and no other fields. -/
def itemWithId (n : Int) : RawItem :=
  ⟨some { id := some n, name := none, ticker := none, token_address := none
          token_created_at := CreatedAt.absent, description := none }⟩

/-- Concrete raw item with a given id and a parsable creation instant. -/
def itemTimed (n : Int) (created : Int) : RawItem :=
  ⟨some { id := some n, name := none, ticker := none, token_address := none
          token_created_at := CreatedAt.parsable "iso" created, description := none }⟩

/-- Concrete nested dict lacking the id field. -/
def tdNoId : RawTokenData :=
  { id := none, name := some "X", ticker := none, token_address := none
    token_created_at := CreatedAt.absent, description := none }

/-- Concrete raw item whose nested dict lacks the id field. -/
def itemNoId : RawItem := ⟨some tdNoId⟩

/-- Concrete sample token used by witnesses. -/
def sampleTok : Token := Token.from_api_data (itemWithId 5)

/-- When is_newly_created raises, the token does not qualify for Startup
reporting. -/
theorem startupQualifies_of_error (tok : Token) (now t : Int) (e : String)
    (h : tok.is_newly_created now t = Except.error e) :
    startupQualifies now t tok = false := by
  rcases hc : tok.created_datetime with _ | mc
  · simp [startupQualifies, hc]
  · rcases mc with _ | c <;> simp [Token.is_newly_created, hc] at h

/-- When is_newly_created returns a boolean, that boolean is exactly the
Startup qualification predicate. -/
theorem startupQualifies_of_ok (tok : Token) (now t : Int) (b : Bool)
    (h : tok.is_newly_created now t = Except.ok b) :
    startupQualifies now t tok = b := by
  rcases hc : tok.created_datetime with _ | mc
  · simp [Token.is_newly_created, hc] at h
  · rcases mc with _ | c <;> simp [Token.is_newly_created, hc] at h <;>
      simp [startupQualifies, hc, h]

/-- First-run reported subset of the per-item loop: exactly the parsed
tokens passing the 30-minute qualification, independent of the store. -/
theorem processLoop_startup_new (now : Int) (items : List RawItem) :
    ∀ st : TokenStore, (processLoop now true st items).1
      = (items.map Token.from_api_data).filter (startupQualifies now 30) := by
  induction items with
  | nil => intro st; rfl
  | cons item rest ih =>
    intro st
    rcases h : (Token.from_api_data item).is_newly_created now 30 with e | b
    · have hq := startupQualifies_of_error _ now 30 e h
      simp [processLoop, h, hq, ih]
    · have hq := startupQualifies_of_ok _ now 30 b h
      cases b <;> simp [processLoop, h, hq, ih]

/-- Steady-state reported subset of the per-item loop: exactly the parsed
tokens novel at the moment they are reached. -/
theorem processLoop_steady_new (now : Int) (items : List RawItem) :
    ∀ st : TokenStore, (processLoop now false st items).1
      = reportNovel st.seen_tokens (items.map Token.from_api_data) := by
  induction items with
  | nil => intro st; rfl
  | cons item rest ih =>
    intro st
    by_cases hm : (Token.from_api_data item).token_id ∈ st.seen_tokens
    · simp [processLoop, TokenStore.is_new_token, hm, reportNovel, ih]
    · simp [processLoop, TokenStore.is_new_token, hm, reportNovel, ih]

/-- Equation for is_new_token on an already-present id. -/
theorem is_new_token_mem_eq (st : TokenStore) (tok : Token)
    (h : tok.token_id ∈ st.seen_tokens) : st.is_new_token tok = (false, st) := by
  simp [TokenStore.is_new_token, h]

/-- Equation for is_new_token on an absent id. -/
theorem is_new_token_not_mem_eq (st : TokenStore) (tok : Token)
    (h : tok.token_id ∉ st.seen_tokens) :
    st.is_new_token tok = (true, ⟨insert tok.token_id st.seen_tokens⟩) := by
  simp [TokenStore.is_new_token, h]

/-- is_new_token never removes ids. -/
theorem is_new_token_mono (st : TokenStore) (tok : Token) :
    st.seen_tokens ⊆ (st.is_new_token tok).2.seen_tokens := by
  by_cases hm : tok.token_id ∈ st.seen_tokens
  · simp [TokenStore.is_new_token, hm]
  · simp only [TokenStore.is_new_token, hm, if_false]
    exact Finset.subset_insert _ _

/-- add_token never removes ids. -/
theorem add_token_mono (st : TokenStore) (tok : Token) :
    st.seen_tokens ⊆ (st.add_token tok).seen_tokens :=
  Finset.subset_insert _ _

/-- The per-item loop never removes ids from the store, in either phase. -/
theorem processLoop_mono (now : Int) (first : Bool) (items : List RawItem) :
    ∀ st : TokenStore, st.seen_tokens ⊆ (processLoop now first st items).2.2.seen_tokens := by
  induction items with
  | nil => intro st; simp [processLoop]
  | cons item rest ih =>
    intro st
    cases first with
    | true =>
      rcases h : (Token.from_api_data item).is_newly_created now 30 with e | b
      · simpa [processLoop, h] using ih st
      · have h1 := add_token_mono st (Token.from_api_data item)
        have h2 := ih (st.add_token (Token.from_api_data item))
        simpa [processLoop, h] using Finset.Subset.trans h1 h2
    | false =>
      have h1 := is_new_token_mono st (Token.from_api_data item)
      have h2 := ih ((st.is_new_token (Token.from_api_data item)).2)
      simpa [processLoop] using Finset.Subset.trans h1 h2

/-- A trace of is_new_token calls never removes ids. -/
theorem runIsNew_mono (toks : List Token) :
    ∀ st : TokenStore, st.seen_tokens ⊆ (runIsNew st toks).seen_tokens := by
  induction toks with
  | nil => intro st; simp [runIsNew]
  | cons t ts ih =>
    intro st
    have h1 := is_new_token_mono st t
    have h2 := ih ((st.is_new_token t).2)
    simpa [runIsNew] using Finset.Subset.trans h1 h2

/-- A trace of is_new_token calls on other ids never introduces x. -/
theorem runIsNew_not_mem (x : Option Int) (toks : List Token) :
    ∀ st : TokenStore, x ∉ st.seen_tokens → (∀ t ∈ toks, t.token_id ≠ x) →
      x ∉ (runIsNew st toks).seen_tokens := by
  induction toks with
  | nil => intro st hx _; simpa [runIsNew] using hx
  | cons t ts ih =>
    intro st hx hne
    have hxt : t.token_id ≠ x := hne t (by simp)
    have hx2 : x ∉ ((st.is_new_token t).2).seen_tokens := by
      by_cases hm : t.token_id ∈ st.seen_tokens
      · simpa [TokenStore.is_new_token, hm] using hx
      · simp only [TokenStore.is_new_token, hm, if_false]
        simp only [Finset.mem_insert]
        rintro (h | h)
        · exact hxt h.symm
        · exact hx h
    have := ih ((st.is_new_token t).2) hx2 (fun u hu => hne u (by simp [hu]))
    simpa [runIsNew] using this

/-- C1, code bug exhibited: running process_tokens plus the run_once
first-run bookkeeping on the Startup batch [itemWithId 1] (whose
token_created_at is absent) parses the token successfully — it appears in
all_tokens — and transitions the phase, yet id 1 is not in the seen set
afterwards: is_newly_created raises AttributeError before add_token runs,
contradicting the claim that every successfully parsed id is absorbed
(and the source comment that all tokens are marked as seen). -/
theorem startup_absorption_bug :
    Token.from_api_data (itemWithId 1)
        ∈ (run_once_process 0 ⟨TokenStore.init, true⟩ [itemWithId 1]).2.1 ∧
    some 1 ∉ (run_once_process 0 ⟨TokenStore.init, true⟩
        [itemWithId 1]).2.2.token_store.seen_tokens ∧
    (run_once_process 0 ⟨TokenStore.init, true⟩ [itemWithId 1]).2.2.is_first_run = false := by
  refine ⟨?_, ?_, rfl⟩ <;> decide

/-- C2, confirmed: in SteadyState the reported subset holds exactly the
tokens whose id was not in the seen set at the moment that token was
reached, in input-batch order; on the batch of ids 1,2,2,3 with seen set
holding some 1 the reported subset is the tokens with ids 2 and 3, the
duplicate id 2 reported once. -/
theorem steady_state_novelty :
    (∀ (now : Int) (st : TokenStore) (items : List RawItem),
        (process_tokens now ⟨st, false⟩ items).1
          = reportNovel st.seen_tokens (items.map Token.from_api_data)) ∧
    (process_tokens 0 ⟨⟨{some 1}⟩, false⟩
        [itemWithId 1, itemWithId 2, itemWithId 2, itemWithId 3]).1
      = [Token.from_api_data (itemWithId 2), Token.from_api_data (itemWithId 3)] := by
  constructor
  · intro now st items
    cases items with
    | nil => rfl
    | cons a l => simpa [process_tokens] using processLoop_steady_new now (a :: l) st
  · decide

/-- Witness instantiating steady_state_novelty on a concrete batch. -/
theorem steady_state_novelty_witness :
    (process_tokens 0 ⟨TokenStore.init, false⟩ [itemWithId 1]).1
      = reportNovel TokenStore.init.seen_tokens ([itemWithId 1].map Token.from_api_data) :=
  steady_state_novelty.1 0 TokenStore.init [itemWithId 1]

/-- C3, confirmed: during Startup a token is reported iff its creation
instant is known and its age relative to the current wall-clock instant
is strictly below 30 minutes; a token with unknown creation instant is
never reported in this phase. -/
theorem startup_reporting_window :
    ∀ now : Int,
      (∀ (st : TokenStore) (items : List RawItem),
        (process_tokens now ⟨st, true⟩ items).1
          = (items.map Token.from_api_data).filter (startupQualifies now 30)) ∧
      (∀ tok : Token, startupQualifies now 30 tok = true ↔
        ∃ created, tok.created_datetime = some (some created) ∧ now - created < 30 * 60) := by
  intro now
  constructor
  · intro st items
    cases items with
    | nil => rfl
    | cons a l => simpa [process_tokens] using processLoop_startup_new now (a :: l) st
  · intro tok
    rcases hc : tok.created_datetime with _ | mc
    · simp [startupQualifies, hc]
    · rcases mc with _ | c
      · simp [startupQualifies, hc]
      · simp [startupQualifies, hc]

/-- Witness instantiating startup_reporting_window on a fresh token. -/
theorem startup_reporting_window_witness :
    (process_tokens 0 ⟨TokenStore.init, true⟩ [itemTimed 1 0]).1
      = [Token.from_api_data (itemTimed 1 0)] := by
  have h := (startup_reporting_window 0).1 TokenStore.init [itemTimed 1 0]
  rw [h]
  decide

/-- C4, confirmed: starting from the store created at process start, the
first is_new_token call for id x — after any trace of calls on other ids
— returns true, and every later call with the same id, after any further
trace, returns false and leaves the store unchanged. -/
theorem is_new_check_then_mark (x : Option Int) (pre post : List Token)
    (hpre : ∀ t ∈ pre, t.token_id ≠ x) (tok tok2 : Token)
    (hx : tok.token_id = x) (hx2 : tok2.token_id = x) :
    ((runIsNew TokenStore.init pre).is_new_token tok).1 = true ∧
    ((runIsNew ((runIsNew TokenStore.init pre).is_new_token tok).2 post).is_new_token
        tok2).1 = false ∧
    ((runIsNew ((runIsNew TokenStore.init pre).is_new_token tok).2 post).is_new_token
        tok2).2
      = runIsNew ((runIsNew TokenStore.init pre).is_new_token tok).2 post := by
  have hx0 : x ∉ TokenStore.init.seen_tokens := by simp [TokenStore.init]
  have h1 : x ∉ (runIsNew TokenStore.init pre).seen_tokens :=
    runIsNew_not_mem x pre TokenStore.init hx0 hpre
  have hfirst := is_new_token_not_mem_eq (runIsNew TokenStore.init pre) tok
    (by rw [hx]; exact h1)
  have hmem2 : tok2.token_id ∈
      (runIsNew ((runIsNew TokenStore.init pre).is_new_token tok).2 post).seen_tokens := by
    refine runIsNew_mono post _ ?_
    rw [hfirst, hx2, ← hx]
    simp
  have hlast := is_new_token_mem_eq
    (runIsNew ((runIsNew TokenStore.init pre).is_new_token tok).2 post) tok2 hmem2
  exact ⟨by rw [hfirst], by rw [hlast], by rw [hlast]⟩

/-- Witness instantiating is_new_check_then_mark on a concrete id. -/
theorem is_new_check_then_mark_witness :
    ((runIsNew TokenStore.init []).is_new_token sampleTok).1 = true ∧
    ((runIsNew ((runIsNew TokenStore.init []).is_new_token sampleTok).2 []).is_new_token
        sampleTok).1 = false ∧
    ((runIsNew ((runIsNew TokenStore.init []).is_new_token sampleTok).2 []).is_new_token
        sampleTok).2
      = runIsNew ((runIsNew TokenStore.init []).is_new_token sampleTok).2 [] :=
  is_new_check_then_mark (some 5) [] [] (by simp) sampleTok sampleTok rfl rfl

/-- C5, confirmed: an empty batch during Startup yields an empty reported
subset and an unchanged store, and the run_once bookkeeping still clears
the first-run flag, so the phase becomes SteadyState. -/
theorem empty_batch_transitions :
    ∀ (now : Int) (st : TokenStore),
      run_once_process now ⟨st, true⟩ [] = ([], [], ⟨st, false⟩) := by
  intro now st
  rfl

/-- Witness instantiating empty_batch_transitions. -/
theorem empty_batch_transitions_witness :
    run_once_process 0 ⟨TokenStore.init, true⟩ [] = ([], [], ⟨TokenStore.init, false⟩) :=
  empty_batch_transitions 0 TokenStore.init

/-- C6 counterexample: the concrete item whose nested dict lacks id is
not rejected with a ParseError by from_api_data; it yields a Token with
token_id none which flows through steady-state processing, appearing in
all_tokens and even in the reported subset. -/
theorem missing_id_no_error_counterexample :
    Token.from_api_data itemNoId
      = { token_id := none, name := some "X", ticker := none, token_address := none,
          token_created_at := CreatedAt.absent, description := none,
          created_datetime := none } ∧
    (process_tokens 0 ⟨TokenStore.init, false⟩ [itemNoId]).2.1
      = [Token.from_api_data itemNoId] ∧
    (process_tokens 0 ⟨TokenStore.init, false⟩ [itemNoId]).1
      = [Token.from_api_data itemNoId] := by
  refine ⟨rfl, ?_, ?_⟩ <;> decide

/-- C6 amended, proved: an item whose nested dict lacks the id field is
never rejected: from_api_data yields a Token whose token_id is none (the
other missing fields likewise default to none), and the item is processed
normally, appearing in all_tokens and deduplicating under the identity
none. -/
theorem missing_id_parses_and_processes :
    ∀ (td : RawTokenData) (now : Int) (st : TokenStore), td.id = none →
      (Token.from_api_data ⟨some td⟩).token_id = none ∧
      (process_tokens now ⟨st, false⟩ [⟨some td⟩]).2.1 = [Token.from_api_data ⟨some td⟩] ∧
      (process_tokens now ⟨st, false⟩ [⟨some td⟩]).1
        = if none ∈ st.seen_tokens then [] else [Token.from_api_data ⟨some td⟩] := by
  intro td now st hid
  have htid : (Token.from_api_data ⟨some td⟩).token_id = none := by
    simp [Token.from_api_data, hid]
  refine ⟨htid, ?_, ?_⟩
  · by_cases hm : (none : Option Int) ∈ st.seen_tokens <;>
      simp [process_tokens, processLoop, TokenStore.is_new_token, htid, hm]
  · by_cases hm : (none : Option Int) ∈ st.seen_tokens <;>
      simp [process_tokens, processLoop, TokenStore.is_new_token, htid, hm]

/-- Witness instantiating missing_id_parses_and_processes. -/
theorem missing_id_parses_and_processes_witness :
    (Token.from_api_data ⟨some tdNoId⟩).token_id = none ∧
    (process_tokens 0 ⟨TokenStore.init, false⟩ [⟨some tdNoId⟩]).2.1
      = [Token.from_api_data ⟨some tdNoId⟩] ∧
    (process_tokens 0 ⟨TokenStore.init, false⟩ [⟨some tdNoId⟩]).1
      = if none ∈ TokenStore.init.seen_tokens then []
        else [Token.from_api_data ⟨some tdNoId⟩] :=
  missing_id_parses_and_processes tdNoId 0 TokenStore.init rfl

/-- C7 counterexample: a token created 45 minutes before now, under a
host-supplied threshold of 60 minutes, is reported by the spec-modelled
Startup decision that uses the supplied threshold, but process_tokens
(which passes the constant 30) does not report it — so the Startup
reporting decision does not use the host threshold. -/
theorem threshold_not_configurable_counterexample :
    startupReportWithThreshold 2700 60 [itemTimed 7 0]
      = [Token.from_api_data (itemTimed 7 0)] ∧
    (process_tokens 2700 ⟨TokenStore.init, true⟩ [itemTimed 7 0]).1 = [] := by
  constructor <;> decide

/-- C7 amended, proved: is_newly_created takes a threshold parameter and
applies it as the strict cutoff threshold * 60 seconds (with default 30
in the source signature), but process_tokens always invokes it with the
constant 30, so the Startup reported subset is the fixed 30-minute filter
— Config carries no threshold field for the host to set. -/
theorem threshold_fixed_at_thirty :
    ∀ now : Int,
      (∀ (tok : Token) (t created : Int), tok.created_datetime = some (some created) →
        tok.is_newly_created now t = Except.ok (decide (now - created < t * 60))) ∧
      (∀ (st : TokenStore) (items : List RawItem),
        (process_tokens now ⟨st, true⟩ items).1
          = (items.map Token.from_api_data).filter (startupQualifies now 30)) := by
  intro now
  constructor
  · intro tok t created hc
    simp [Token.is_newly_created, hc]
  · intro st items
    cases items with
    | nil => rfl
    | cons a l => simpa [process_tokens] using processLoop_startup_new now (a :: l) st

/-- Witness instantiating threshold_fixed_at_thirty. -/
theorem threshold_fixed_at_thirty_witness :
    (Token.from_api_data (itemTimed 7 0)).is_newly_created 2700 60
      = Except.ok (decide ((2700 : Int) - 0 < 60 * 60)) :=
  (threshold_fixed_at_thirty 2700).1 (Token.from_api_data (itemTimed 7 0)) 60 0 rfl

/-- C8, confirmed: the seen set starts empty at process start and every
operation on it — is_new_token, add_token, and process_tokens in either
phase — yields a superset of the previous seen set. -/
theorem seen_set_monotone :
    TokenStore.init.seen_tokens = ∅ ∧
    (∀ (st : TokenStore) (tok : Token),
      st.seen_tokens ⊆ (st.is_new_token tok).2.seen_tokens) ∧
    (∀ (st : TokenStore) (tok : Token),
      st.seen_tokens ⊆ (st.add_token tok).seen_tokens) ∧
    (∀ (now : Int) (s : ScraperState) (items : List RawItem),
      s.token_store.seen_tokens ⊆ (process_tokens now s items).2.2.seen_tokens) := by
  refine ⟨rfl, is_new_token_mono, add_token_mono, ?_⟩
  intro now s items
  cases items with
  | nil => simp [process_tokens]
  | cons a l =>
    simpa [process_tokens] using processLoop_mono now s.is_first_run (a :: l) s.token_store

/-- Witness instantiating seen_set_monotone. -/
theorem seen_set_monotone_witness :
    TokenStore.init.seen_tokens ⊆ (TokenStore.init.is_new_token sampleTok).2.seen_tokens :=
  seen_set_monotone.2.1 TokenStore.init sampleTok

/-- C9, confirmed: an item whose token_created_at value is absent (or not
a string) parses to a Token on which the created_datetime attribute was
never assigned; is_newly_created on it raises AttributeError, so a
Startup-phase pass over the batch appends the token to all_tokens but the
per-item exception handler then skips it: it is neither reported nor ever
marked seen, and the rest of the batch is processed as if it were not
there. -/
theorem absent_created_at_skipped :
    ∀ td : RawTokenData, td.token_created_at = CreatedAt.absent →
      ∀ (now : Int) (st : TokenStore) (rest : List RawItem),
        (Token.from_api_data ⟨some td⟩).created_datetime = none ∧
        (Token.from_api_data ⟨some td⟩).is_newly_created now 30
          = Except.error "AttributeError: created_datetime" ∧
        processLoop now true st (⟨some td⟩ :: rest)
          = ((processLoop now true st rest).1,
             Token.from_api_data ⟨some td⟩ :: (processLoop now true st rest).2.1,
             (processLoop now true st rest).2.2) := by
  intro td htd now st rest
  have hcd : (Token.from_api_data ⟨some td⟩).created_datetime = none := by
    simp [Token.from_api_data, htd, postInitCreated]
  have herr : (Token.from_api_data ⟨some td⟩).is_newly_created now 30
      = Except.error "AttributeError: created_datetime" := by
    simp [Token.is_newly_created, hcd]
  exact ⟨hcd, herr, by simp [processLoop, herr]⟩

/-- Witness instantiating absent_created_at_skipped. -/
theorem absent_created_at_skipped_witness :
    (Token.from_api_data ⟨some tdNoId⟩).created_datetime = none ∧
    (Token.from_api_data ⟨some tdNoId⟩).is_newly_created 0 30
      = Except.error "AttributeError: created_datetime" ∧
    processLoop 0 true TokenStore.init (⟨some tdNoId⟩ :: [])
      = ((processLoop 0 true TokenStore.init []).1,
         Token.from_api_data ⟨some tdNoId⟩ :: (processLoop 0 true TokenStore.init []).2.1,
         (processLoop 0 true TokenStore.init []).2.2) :=
  absent_created_at_skipped tdNoId rfl 0 TokenStore.init []

/-- C10, confirmed: from_api_data is total on items whose nested token
value is a dict, so a missing id yields a Token with identity none; all
such records share that identity, and in SteadyState the first one in the
process lifetime is reported while every later one — whether later in the
same batch or once none is already seen — is silently dropped as a
duplicate. -/
theorem missing_id_records_share_identity :
    ∀ (td1 td2 : RawTokenData) (now : Int) (st : TokenStore),
      td1.id = none → td2.id = none →
      (Token.from_api_data ⟨some td1⟩).token_id = none ∧
      (Token.from_api_data ⟨some td2⟩).token_id = none ∧
      (none ∉ st.seen_tokens →
        (process_tokens now ⟨st, false⟩ [⟨some td1⟩, ⟨some td2⟩]).1
          = [Token.from_api_data ⟨some td1⟩]) ∧
      (none ∈ st.seen_tokens →
        (process_tokens now ⟨st, false⟩ [⟨some td1⟩, ⟨some td2⟩]).1 = []) := by
  intro td1 td2 now st h1 h2
  have t1 : (Token.from_api_data ⟨some td1⟩).token_id = none := by
    simp [Token.from_api_data, h1]
  have t2 : (Token.from_api_data ⟨some td2⟩).token_id = none := by
    simp [Token.from_api_data, h2]
  refine ⟨t1, t2, ?_, ?_⟩
  · intro hnm
    simp [process_tokens, processLoop, TokenStore.is_new_token, t1, t2, hnm,
      Finset.mem_insert_self]
  · intro hm
    simp [process_tokens, processLoop, TokenStore.is_new_token, t1, t2, hm]

/-- Witness instantiating missing_id_records_share_identity. -/
theorem missing_id_records_share_identity_witness :
    (process_tokens 0 ⟨TokenStore.init, false⟩ [⟨some tdNoId⟩, ⟨some tdNoId⟩]).1
      = [Token.from_api_data ⟨some tdNoId⟩] :=
  (missing_id_records_share_identity tdNoId tdNoId 0 TokenStore.init rfl rfl).2.2.1
    (by simp [TokenStore.init])
